import Mathlib

/-!
Verification of the WIA (compressed disc image) decoder of this repository.

The embedding models the byte-level view of a WIA file and the
`DiscIO::WIAFileReader` class: its packed on-disk record structs
(`WIAHeader1`, `WIAHeader2`, `PartitionDataEntry`, `PartitionEntry`,
`RawDataEntry`, `GroupEntry`, `HashExceptionEntry`, `PurgeSegment`), its
compression-type enumeration, its version constants, and its accessor
member functions (`GetRawSize`, `GetDataSize`, `IsDataSizeAccurate`,
`GetBlockSize`, `HasFastRandomAccessInBlock`).

Machine integers are modelled as `Nat` with explicit reductions `% 2^32`
or `% 2^64` where width matters.  Loading a packed struct from file bytes
is modelled as a memcpy on a little-endian host: each integer field holds
the little-endian interpretation of its byte range, exactly as the struct
members do after `File::IOFile::ReadArray` on x86.  `Common::swap32` /
`Common::swap64` (from Common/Swap.h, converting big-endian file values to
host order on a little-endian host) are byte reversals of the 32/64-bit
value.
-/

set_option maxRecDepth 8000

namespace DiscIO

/-- Little-endian interpretation of a list of bytes: the first byte is the
least significant.  This is how a little-endian host reads an integer
field that was memcpy'd from the file. -/
def leInterp : List Nat → Nat
  | [] => 0
  | b :: l => b + 256 * leInterp l

/-- Big-endian interpretation of a list of bytes: the first byte is the
most significant.  This is the numeric value of an on-disk big-endian
field of the WIA format. -/
def beInterp (bs : List Nat) : Nat := leInterp bs.reverse

/-- The `k` little-endian bytes of `n`. -/
def bytesLE : Nat → Nat → List Nat
  | 0, _ => []
  | k + 1, n => n % 256 :: bytesLE k (n / 256)

/-- The `k` big-endian bytes of `n` (used by the on-disk serializers). -/
def bytesBE (k n : Nat) : List Nat := (bytesLE k n).reverse

/-- `Common::swap32`: byte-reverse a 32-bit value (big-endian file value to
host order on a little-endian host). -/
def swap32 (n : Nat) : Nat := leInterp (bytesLE 4 (n % 2 ^ 32)).reverse

/-- `Common::swap64`: byte-reverse a 64-bit value. -/
def swap64 (n : Nat) : Nat := leInterp (bytesLE 8 (n % 2 ^ 64)).reverse

/-- The byte range `[off, off+len)` of a byte list (a packed struct field's
bytes). -/
def sliceBytes (bs : List Nat) (off len : Nat) : List Nat :=
  (bs.drop off).take len

theorem bytesLE_length (k n : Nat) : (bytesLE k n).length = k := by
  induction k generalizing n with
  | zero => rfl
  | succ k ih => simp [bytesLE, ih]

theorem leInterp_lt (bs : List Nat) (h : ∀ b ∈ bs, b < 256) :
    leInterp bs < 256 ^ bs.length := by
  induction bs with
  | nil => simp [leInterp]
  | cons b l ih =>
    have hb : b < 256 := h b (by simp)
    have hl : leInterp l < 256 ^ l.length := ih (fun x hx => h x (by simp [hx]))
    simp only [leInterp, List.length_cons, pow_succ]
    have h2 : 256 ^ l.length * 256 = 256 * 256 ^ l.length := by ring
    rw [h2]
    have : (256 : Nat) ^ l.length > 0 := Nat.pos_pow_of_pos _ (by norm_num)
    nlinarith

theorem bytesLE_leInterp (bs : List Nat) (h : ∀ b ∈ bs, b < 256) :
    bytesLE bs.length (leInterp bs) = bs := by
  induction bs with
  | nil => rfl
  | cons b l ih =>
    have hb : b < 256 := h b (by simp)
    simp only [List.length_cons, bytesLE, leInterp]
    have hmod : (b + 256 * leInterp l) % 256 = b := by
      rw [Nat.add_mul_mod_self_left, Nat.mod_eq_of_lt hb]
    have hdiv : (b + 256 * leInterp l) / 256 = leInterp l := by
      rw [Nat.add_mul_div_left _ _ (by norm_num : (0:Nat) < 256),
        Nat.div_eq_of_lt hb, Nat.zero_add]
    rw [hmod, hdiv, ih (fun x hx => h x (by simp [hx]))]

theorem swap64_leInterp (bs : List Nat) (h : ∀ b ∈ bs, b < 256)
    (hl : bs.length = 8) : swap64 (leInterp bs) = beInterp bs := by
  have hlt : leInterp bs < 2 ^ 64 := by
    have h1 := leInterp_lt bs h
    rw [hl] at h1
    calc leInterp bs < 256 ^ 8 := h1
    _ = 2 ^ 64 := by norm_num
  unfold swap64 beInterp
  rw [Nat.mod_eq_of_lt hlt, ← hl, bytesLE_leInterp bs h]

theorem swap32_leInterp (bs : List Nat) (h : ∀ b ∈ bs, b < 256)
    (hl : bs.length = 4) : swap32 (leInterp bs) = beInterp bs := by
  have hlt : leInterp bs < 2 ^ 32 := by
    have h1 := leInterp_lt bs h
    rw [hl] at h1
    calc leInterp bs < 256 ^ 4 := h1
    _ = 2 ^ 32 := by norm_num
  unfold swap32 beInterp
  rw [Nat.mod_eq_of_lt hlt, ← hl, bytesLE_leInterp bs h]

theorem sliceBytes_subset (bs : List Nat) (off len : Nat) :
    ∀ b ∈ sliceBytes bs off len, b ∈ bs := by
  intro b hb
  exact List.drop_subset off bs (List.take_subset len _ hb)

theorem sliceBytes_length (bs : List Nat) (off len : Nat)
    (h : off + len ≤ bs.length) : (sliceBytes bs off len).length = len := by
  simp only [sliceBytes, List.length_take, List.length_drop]
  omega

theorem sliceBytes_drop (bs : List Nat) (a off len : Nat) :
    sliceBytes (bs.drop a) off len = sliceBytes bs (a + off) len := by
  simp only [sliceBytes, List.drop_drop]

/-! ## The packed on-disk structs of `WIAFileReader`

Each integer field is `Nat`; `SHA1` (`std::array<u8, 20>`), `WiiKey`
(`std::array<u8, 16>`) and the other `u8` arrays are byte lists whose
length is constrained where a theorem needs it.  Field order and widths
follow the `#pragma pack(push, 1)` declarations in the source. -/

/-- `WIAHeader1`: magic, version, version_compatible, header_2_size (u32),
header_2_hash (SHA1), iso_file_size, wia_file_size (u64), header_1_hash
(SHA1). -/
structure WIAHeader1 where
  magic : Nat
  version : Nat
  version_compatible : Nat
  header_2_size : Nat
  header_2_hash : List Nat
  iso_file_size : Nat
  wia_file_size : Nat
  header_1_hash : List Nat
deriving DecidableEq

/-- `WIAHeader2`: disc/compression info, the 0x80-byte disc header copy,
and the three table descriptors, ending in the compressor data blob. -/
structure WIAHeader2 where
  disc_type : Nat
  compression_type : Nat
  compression_level : Nat
  chunk_size : Nat
  disc_header : List Nat
  number_of_partition_entries : Nat
  partition_entry_size : Nat
  partition_entries_offset : Nat
  partition_entries_hash : List Nat
  number_of_raw_data_entries : Nat
  raw_data_entries_offset : Nat
  raw_data_entries_size : Nat
  number_of_group_entries : Nat
  group_entries_offset : Nat
  group_entries_size : Nat
  compressor_data_size : Nat
  compressor_data : List Nat
deriving DecidableEq

/-- `PartitionDataEntry`: four u32 fields. -/
structure PartitionDataEntry where
  first_sector : Nat
  number_of_sectors : Nat
  group_index : Nat
  number_of_groups : Nat
deriving DecidableEq

/-- `PartitionEntry`: a 16-byte Wii partition key and two
`PartitionDataEntry` records (`std::array<PartitionDataEntry, 2>`). -/
structure PartitionEntry where
  partition_key : List Nat
  data_entries : PartitionDataEntry × PartitionDataEntry
deriving DecidableEq

/-- `RawDataEntry`: data_offset, data_size (u64), group_index,
number_of_groups (u32). -/
structure RawDataEntry where
  data_offset : Nat
  data_size : Nat
  group_index : Nat
  number_of_groups : Nat
deriving DecidableEq

/-- `GroupEntry`: data_offset (u32, the file offset shifted right by 2)
and data_size (u32, the compressed size). -/
structure GroupEntry where
  data_offset : Nat
  data_size : Nat
deriving DecidableEq

/-- `HashExceptionEntry`: offset (u16) and a 20-byte SHA-1. -/
structure HashExceptionEntry where
  offset : Nat
  hash : List Nat
deriving DecidableEq

/-- `PurgeSegment`: offset (u32) and size (u32). -/
structure PurgeSegment where
  offset : Nat
  size : Nat
deriving DecidableEq

/-! ## On-disk serializers

`#pragma pack(1)` makes each struct's size the sum of its field widths;
the serializers lay the fields out in declaration order with big-endian
integer bytes, so a record's on-disk size is the length of its
serialization. -/

/-- On-disk bytes of a `WIAHeader1` (0x48 bytes when the hashes are
20 bytes each). -/
def serializeHeader1 (h : WIAHeader1) : List Nat :=
  bytesBE 4 h.magic ++ bytesBE 4 h.version ++ bytesBE 4 h.version_compatible ++
  bytesBE 4 h.header_2_size ++ h.header_2_hash ++ bytesBE 8 h.iso_file_size ++
  bytesBE 8 h.wia_file_size ++ h.header_1_hash

/-- On-disk bytes of a `WIAHeader2`. -/
def serializeHeader2 (h : WIAHeader2) : List Nat :=
  bytesBE 4 h.disc_type ++ bytesBE 4 h.compression_type ++
  bytesBE 4 h.compression_level ++ bytesBE 4 h.chunk_size ++
  h.disc_header ++
  bytesBE 4 h.number_of_partition_entries ++ bytesBE 4 h.partition_entry_size ++
  bytesBE 8 h.partition_entries_offset ++ h.partition_entries_hash ++
  bytesBE 4 h.number_of_raw_data_entries ++ bytesBE 8 h.raw_data_entries_offset ++
  bytesBE 4 h.raw_data_entries_size ++
  bytesBE 4 h.number_of_group_entries ++ bytesBE 8 h.group_entries_offset ++
  bytesBE 4 h.group_entries_size ++
  bytesBE 1 h.compressor_data_size ++ h.compressor_data

/-- On-disk bytes of a `PartitionDataEntry` (0x10 bytes). -/
def serializePartitionDataEntry (e : PartitionDataEntry) : List Nat :=
  bytesBE 4 e.first_sector ++ bytesBE 4 e.number_of_sectors ++
  bytesBE 4 e.group_index ++ bytesBE 4 e.number_of_groups

/-- On-disk bytes of a `PartitionEntry`: the 16-byte key followed by the
two `PartitionDataEntry` records. -/
def serializePartitionEntry (e : PartitionEntry) : List Nat :=
  e.partition_key ++ serializePartitionDataEntry e.data_entries.1 ++
  serializePartitionDataEntry e.data_entries.2

/-- On-disk bytes of a `RawDataEntry` (0x18 bytes). -/
def serializeRawDataEntry (e : RawDataEntry) : List Nat :=
  bytesBE 8 e.data_offset ++ bytesBE 8 e.data_size ++
  bytesBE 4 e.group_index ++ bytesBE 4 e.number_of_groups

/-- On-disk bytes of a `GroupEntry` (0x08 bytes): two u32 fields. -/
def serializeGroupEntry (e : GroupEntry) : List Nat :=
  bytesBE 4 e.data_offset ++ bytesBE 4 e.data_size

/-- On-disk bytes of a `HashExceptionEntry` (0x16 bytes). -/
def serializeHashExceptionEntry (e : HashExceptionEntry) : List Nat :=
  bytesBE 2 e.offset ++ e.hash

/-- On-disk bytes of a `PurgeSegment` (0x08 bytes): two u32 fields. -/
def serializePurgeSegment (e : PurgeSegment) : List Nat :=
  bytesBE 4 e.offset ++ bytesBE 4 e.size

/-! ## Loading the packed structs from file bytes (little-endian host) -/

/-- Memcpy of the file's first 0x48 bytes into a `WIAHeader1` on a
little-endian host: every integer field holds the little-endian
interpretation of its byte range, so a big-endian on-disk field is stored
byte-swapped. -/
def loadHeader1 (bs : List Nat) : WIAHeader1 where
  magic := leInterp (sliceBytes bs 0 4)
  version := leInterp (sliceBytes bs 4 4)
  version_compatible := leInterp (sliceBytes bs 8 4)
  header_2_size := leInterp (sliceBytes bs 12 4)
  header_2_hash := sliceBytes bs 16 20
  iso_file_size := leInterp (sliceBytes bs 36 8)
  wia_file_size := leInterp (sliceBytes bs 44 8)
  header_1_hash := sliceBytes bs 52 20

/-- Memcpy of a 0xDC-byte region into a `WIAHeader2` on a little-endian
host (`bs` starts at the header's first byte, offset 0x48 in the file). -/
def loadHeader2 (bs : List Nat) : WIAHeader2 where
  disc_type := leInterp (sliceBytes bs 0 4)
  compression_type := leInterp (sliceBytes bs 4 4)
  compression_level := leInterp (sliceBytes bs 8 4)
  chunk_size := leInterp (sliceBytes bs 12 4)
  disc_header := sliceBytes bs 16 128
  number_of_partition_entries := leInterp (sliceBytes bs 144 4)
  partition_entry_size := leInterp (sliceBytes bs 148 4)
  partition_entries_offset := leInterp (sliceBytes bs 152 8)
  partition_entries_hash := sliceBytes bs 160 20
  number_of_raw_data_entries := leInterp (sliceBytes bs 180 4)
  raw_data_entries_offset := leInterp (sliceBytes bs 184 8)
  raw_data_entries_size := leInterp (sliceBytes bs 192 4)
  number_of_group_entries := leInterp (sliceBytes bs 196 4)
  group_entries_offset := leInterp (sliceBytes bs 200 8)
  group_entries_size := leInterp (sliceBytes bs 208 4)
  compressor_data_size := leInterp (sliceBytes bs 212 1)
  compressor_data := sliceBytes bs 213 7

/-! ## The decoder class -/

/-- `enum class CompressionType : u32` of the source, with underlying
values 0..4. -/
inductive CompressionType where
  | None
  | Purge
  | Bzip2
  | LZMA
  | LZMA2
deriving DecidableEq

/-- The underlying u32 value of each enumerator (`None = 0`, `Purge = 1`,
`Bzip2 = 2`, `LZMA = 3`, `LZMA2 = 4`). -/
def CompressionType.toU32 : CompressionType → Nat
  | CompressionType.None => 0
  | CompressionType.Purge => 1
  | CompressionType.Bzip2 => 2
  | CompressionType.LZMA => 3
  | CompressionType.LZMA2 => 4

/-- Decode a u32 into a `CompressionType`; values outside 0..4 have no
enumerator. -/
def CompressionType.ofU32 : Nat → Option CompressionType
  | 0 => Option.some CompressionType.None
  | 1 => Option.some CompressionType.Purge
  | 2 => Option.some CompressionType.Bzip2
  | 3 => Option.some CompressionType.LZMA
  | 4 => Option.some CompressionType.LZMA2
  | _ => Option.none

/-- `WIA_MAGIC`: `"WIA\x01"` byteswapped to little endian. -/
def WIA_MAGIC : Nat := 0x01414957

/-- `WIA_VERSION`. -/
def WIA_VERSION : Nat := 0x01000000

/-- `WIA_VERSION_WRITE_COMPATIBLE`. -/
def WIA_VERSION_WRITE_COMPATIBLE : Nat := 0x01000000

/-- `WIA_VERSION_READ_COMPATIBLE`: the decoder's read-compatibility
floor. -/
def WIA_VERSION_READ_COMPATIBLE : Nat := 0x00080000

/-- The stored state of a `WIAFileReader` after construction: the two
headers as loaded from the file plus the parsed tables. -/
structure WIAFileReader where
  m_valid : Bool
  m_compression_type : CompressionType
  m_header_1 : WIAHeader1
  m_header_2 : WIAHeader2
  m_partition_entries : List PartitionEntry
  m_raw_data_entries : List RawDataEntry
  m_group_entries : List GroupEntry
deriving DecidableEq

/-- `GetRawSize`: `return Common::swap64(m_header_1.wia_file_size);`. -/
def WIAFileReader.GetRawSize (r : WIAFileReader) : Nat :=
  swap64 r.m_header_1.wia_file_size

/-- `GetDataSize`: `return Common::swap64(m_header_1.iso_file_size);`. -/
def WIAFileReader.GetDataSize (r : WIAFileReader) : Nat :=
  swap64 r.m_header_1.iso_file_size

/-- `IsDataSizeAccurate`: `return true;`. -/
def WIAFileReader.IsDataSizeAccurate (_r : WIAFileReader) : Bool := true

/-- `GetBlockSize`: `return Common::swap32(m_header_2.chunk_size);`. -/
def WIAFileReader.GetBlockSize (r : WIAFileReader) : Nat :=
  swap32 r.m_header_2.chunk_size

/-- `HasFastRandomAccessInBlock`: `return false;`. -/
def WIAFileReader.HasFastRandomAccessInBlock (_r : WIAFileReader) : Bool := false

/-! ## SHA-1

The spec's open path verifies `header_1_hash` and `header_2_hash` with
SHA-1 (§3, §4.1).  The hash implementation the decoder calls lives
outside the provided sources, so SHA-1 (FIPS 180-1) is modelled here
concretely: padding, the 80-round compression function, and the final
big-endian digest.  The model is validated against the standard test
vectors below. -/

/-- Truncate to 32 bits. -/
def w32 (n : Nat) : Nat := n % 4294967296

/-- Rotate a 32-bit value (`n < 2^32`) left by `s`. -/
def rotl (s n : Nat) : Nat := (n * 2 ^ s) % 4294967296 + n / 2 ^ (32 - s)

/-- The SHA-1 round function for round `t`. -/
def sha1F (t b c d : Nat) : Nat :=
  if t < 20 then (b &&& c) ||| ((b ^^^ 4294967295) &&& d)
  else if t < 40 then b ^^^ c ^^^ d
  else if t < 60 then (b &&& c) ||| (b &&& d) ||| (c &&& d)
  else b ^^^ c ^^^ d

/-- The SHA-1 round constant for round `t`. -/
def sha1K (t : Nat) : Nat :=
  if t < 20 then 0x5A827999
  else if t < 40 then 0x6ED9EBA1
  else if t < 60 then 0x8F1BBCDC
  else 0xCA62C1D6

/-- Extend the 16 message words of a block by `k` more words
(`W[t] = rotl1 (W[t-3] xor W[t-8] xor W[t-14] xor W[t-16])`). -/
def sha1Extend : Nat → List Nat → List Nat
  | 0, ws => ws
  | k + 1, ws =>
    sha1Extend k (ws ++ [rotl 1 (ws.getD (ws.length - 3) 0 ^^^ ws.getD (ws.length - 8) 0 ^^^
      ws.getD (ws.length - 14) 0 ^^^ ws.getD (ws.length - 16) 0)])

/-- The five 32-bit working registers of SHA-1. -/
structure SHA1State where
  a : Nat
  b : Nat
  c : Nat
  d : Nat
  e : Nat
deriving DecidableEq

/-- Run the rounds of one block, one per message word, starting at round
`t`. -/
def sha1Rounds : Nat → List Nat → SHA1State → SHA1State
  | _, [], st => st
  | t, w :: ws, st =>
    sha1Rounds (t + 1) ws
      { a := w32 (rotl 5 st.a + sha1F t st.b st.c st.d + st.e + w + sha1K t)
        b := st.a
        c := rotl 30 st.b
        d := st.c
        e := st.d }

/-- Group bytes into big-endian 32-bit message words. -/
def words32 : List Nat → List Nat
  | b0 :: b1 :: b2 :: b3 :: rest => beInterp [b0, b1, b2, b3] :: words32 rest
  | _ => []

/-- Process one 64-byte block: 80 rounds, then add the result into the
chaining state. -/
def sha1BlockStep (st : SHA1State) (block : List Nat) : SHA1State :=
  let r := sha1Rounds 0 (sha1Extend 64 (words32 block)) st
  { a := w32 (st.a + r.a), b := w32 (st.b + r.b), c := w32 (st.c + r.c),
    d := w32 (st.d + r.d), e := w32 (st.e + r.e) }

/-- Split a byte list into 64-byte blocks (the fuel is an upper bound on
the list length). -/
def chunks64 : Nat → List Nat → List (List Nat)
  | 0, _ => []
  | _ + 1, [] => []
  | fuel + 1, l => l.take 64 :: chunks64 fuel (l.drop 64)

/-- SHA-1 message padding: a 0x80 byte, zeros to 56 mod 64, and the
message bit length as a big-endian 64-bit value. -/
def sha1Pad (msg : List Nat) : List Nat :=
  msg ++ 0x80 :: (List.replicate ((119 - msg.length % 64) % 64) 0 ++ bytesBE 8 (8 * msg.length))

/-- SHA-1 of a byte list: the 20-byte big-endian digest. -/
def sha1 (msg : List Nat) : List Nat :=
  let st := (chunks64 (sha1Pad msg).length (sha1Pad msg)).foldl sha1BlockStep
    { a := 0x67452301, b := 0xEFCDAB89, c := 0x98BADCFE, d := 0x10325476, e := 0xC3D2E1F0 }
  bytesBE 4 st.a ++ bytesBE 4 st.b ++ bytesBE 4 st.c ++ bytesBE 4 st.d ++ bytesBE 4 st.e

/-- The SHA-1 model reproduces the standard digest of the empty
message. -/
theorem sha1_empty_vector :
    sha1 [] = [0xda, 0x39, 0xa3, 0xee, 0x5e, 0x6b, 0x4b, 0x0d, 0x32, 0x55,
      0xbf, 0xef, 0x95, 0x60, 0x18, 0x90, 0xaf, 0xd8, 0x07, 0x09] := by decide

/-- The SHA-1 model reproduces the standard digest of `"abc"` (FIPS
180-1 example A.1). -/
theorem sha1_abc_vector :
    sha1 [0x61, 0x62, 0x63] = [0xa9, 0x99, 0x3e, 0x36, 0x47, 0x06, 0x81, 0x6a,
      0xba, 0x3e, 0x25, 0x71, 0x78, 0x50, 0xc2, 0x6c, 0x9c, 0xd0, 0xd8, 0x9d] := by decide

/-- The bytes over which `header_1_hash` is computed: the first 0x48
bytes of the file with the 20-byte hash field itself zeroed during the
computation (spec §3). -/
def header1HashInput (bs : List Nat) : List Nat :=
  sliceBytes bs 0 52 ++ List.replicate 20 0

/-- The bytes over which `header_2_hash` is computed: the
`header_2_size` (host order) bytes following `Header1` (spec §3). -/
def header2HashInput (bs : List Nat) : List Nat :=
  sliceBytes bs 0x48 (swap32 (loadHeader1 bs).header_2_size)

/-- The error kinds of the spec's failure model (§7). -/
inductive WIAError where
  | UnsupportedFormat
  | Corrupt
  | OutOfRange
  | IOError
  | Unsupported
deriving DecidableEq

/-- Modelled from the spec: `WIAFileReader::Create`/`Initialize` is not
among the provided sources (only its declaration is), so the open path is
modelled from §4.1/§6.1/§7 of the spec, in the spec's order: read
`Header1` from the file bytes; fail `UnsupportedFormat` when the magic
mismatches; verify `header_1_hash` and `header_2_hash` with SHA-1 and
fail `Corrupt` on mismatch; reject a `version_compatible` below
`WIA_VERSION_READ_COMPATIBLE`; read `Header2`; and fail
`UnsupportedFormat` on a disc type outside {1, 2} or a compression type
outside the enumeration.  A file too short for the two headers, or for
the `header_2_size` bytes being hashed, fails `IOError` (§4.5).  Table
parsing and its hash verification are not modelled (no claim depends on
them; the tables are left empty).  The headers are stored exactly as
loaded — raw, unswapped — which is what the accessors in the provided
header file require, since they apply `Common::swap64`/`swap32` to the
stored fields at access time. -/
def openWIA (bs : List Nat) : Except WIAError WIAFileReader :=
  if bs.length < 0x48 + 0xDC then Except.error WIAError.IOError
  else if (loadHeader1 bs).magic ≠ WIA_MAGIC then
    Except.error WIAError.UnsupportedFormat
  else if sha1 (header1HashInput bs) ≠ (loadHeader1 bs).header_1_hash then
    Except.error WIAError.Corrupt
  else if bs.length < 0x48 + swap32 (loadHeader1 bs).header_2_size then
    Except.error WIAError.IOError
  else if sha1 (header2HashInput bs) ≠ (loadHeader1 bs).header_2_hash then
    Except.error WIAError.Corrupt
  else if swap32 (loadHeader1 bs).version_compatible < WIA_VERSION_READ_COMPATIBLE then
    Except.error WIAError.UnsupportedFormat
  else if ¬ (swap32 (loadHeader2 (bs.drop 0x48)).disc_type = 1 ∨
      swap32 (loadHeader2 (bs.drop 0x48)).disc_type = 2) then
    Except.error WIAError.UnsupportedFormat
  else
    match CompressionType.ofU32 (swap32 (loadHeader2 (bs.drop 0x48)).compression_type) with
    | Option.none => Except.error WIAError.UnsupportedFormat
    | Option.some c =>
      Except.ok
        { m_valid := true
          m_compression_type := c
          m_header_1 := loadHeader1 bs
          m_header_2 := loadHeader2 (bs.drop 0x48)
          m_partition_entries := []
          m_raw_data_entries := []
          m_group_entries := [] }

/-- Inversion of a successful `openWIA`: the file is long enough for both
headers, the stored headers are exactly the loaded ones, and the magic and
version checks passed. -/
theorem openWIA_ok_inv (bs : List Nat) (r : WIAFileReader)
    (hok : openWIA bs = Except.ok r) :
    0x48 + 0xDC ≤ bs.length ∧ r.m_header_1 = loadHeader1 bs ∧
    r.m_header_2 = loadHeader2 (bs.drop 0x48) ∧
    (loadHeader1 bs).magic = WIA_MAGIC ∧
    WIA_VERSION_READ_COMPATIBLE ≤ swap32 (loadHeader1 bs).version_compatible := by
  unfold openWIA at hok
  split at hok
  · cases hok
  · rename_i hlen
    split at hok
    · cases hok
    · rename_i hmagic
      split at hok
      · cases hok
      · split at hok
        · cases hok
        · split at hok
          · cases hok
          · split at hok
            · cases hok
            · rename_i hver
              split at hok
              · cases hok
              · split at hok
                · cases hok
                · cases hok
                  exact ⟨by omega, rfl, rfl, not_not.mp hmagic, Nat.not_lt.mp hver⟩

/-! ## A concrete well-formed example file

A 0x124-byte file holding just the two headers: correct magic, version
1.0, version_compatible 0x00080000, `iso_file_size` 0x1234,
`wia_file_size` 0x99, GameCube disc type, no compression, chunk size
0x200000, and both header hashes genuinely equal to the SHA-1 of the
regions they cover.  (Big-endian on disk, as the format prescribes.) -/

/-- The `Header2` region of the example file: GameCube disc type, no
compression, chunk size 0x200000, empty tables. -/
def exHeader2Bytes : List Nat :=
  [0x00, 0x00, 0x00, 0x01,
   0x00, 0x00, 0x00, 0x00,
   0x00, 0x00, 0x00, 0x00,
   0x00, 0x20, 0x00, 0x00] ++
  List.replicate 204 0

/-- SHA-1 of `exHeader2Bytes`: the example file's `header_2_hash`. -/
def exHeader2Hash : List Nat :=
  [0xe6, 0x2e, 0xd4, 0xb2, 0x78, 0x7d, 0xa1, 0xf2, 0x1a, 0x62,
   0xeb, 0xca, 0x04, 0x84, 0x95, 0xa1, 0x10, 0xb0, 0x26, 0xae]

/-- SHA-1 of the example file's first 0x48 bytes with the hash field
zeroed: its `header_1_hash`. -/
def exHeader1Hash : List Nat :=
  [0xfe, 0xce, 0x03, 0x5f, 0x53, 0xd2, 0x20, 0x83, 0x04, 0x31,
   0xbe, 0xb5, 0x28, 0xa9, 0xfa, 0x15, 0x14, 0xfc, 0xde, 0xb1]

/-- The example file. -/
def exBytes : List Nat :=
  [0x57, 0x49, 0x41, 0x01,
   0x01, 0x00, 0x00, 0x00,
   0x00, 0x08, 0x00, 0x00,
   0x00, 0x00, 0x00, 0xDC] ++
  exHeader2Hash ++
  [0x00, 0x00, 0x00, 0x00, 0x00, 0x00, 0x12, 0x34] ++
  [0x00, 0x00, 0x00, 0x00, 0x00, 0x00, 0x00, 0x99] ++
  exHeader1Hash ++
  exHeader2Bytes

/-- The reader state `openWIA` produces for `exBytes`. -/
def exReader : WIAFileReader where
  m_valid := true
  m_compression_type := CompressionType.None
  m_header_1 := loadHeader1 exBytes
  m_header_2 := loadHeader2 (exBytes.drop 0x48)
  m_partition_entries := []
  m_raw_data_entries := []
  m_group_entries := []

set_option maxRecDepth 8000 in
theorem openWIA_exBytes : openWIA exBytes = Except.ok exReader := by rfl

/-- `exBytes` with its first byte changed, so that the first u32 is
0x01414958 instead of the WIA magic (spec scenario S1). -/
def exBadMagicBytes : List Nat := List.set exBytes 0 0x58

/-- `exBytes` with `version_compatible` lowered to 0x00070000, below the
read-compatibility floor. -/
def exBadVersionBytes : List Nat := List.set exBytes 9 0x07

/-- The `Header2` region of the bad-compression example file:
`compression_type` = 5, outside the enumeration. -/
def exBadCompHeader2Bytes : List Nat :=
  [0x00, 0x00, 0x00, 0x01,
   0x00, 0x00, 0x00, 0x05,
   0x00, 0x00, 0x00, 0x00,
   0x00, 0x20, 0x00, 0x00] ++
  List.replicate 204 0

/-- SHA-1 of `exBadCompHeader2Bytes`. -/
def exBadCompHeader2Hash : List Nat :=
  [0xb2, 0x9b, 0x89, 0x0b, 0x69, 0x8b, 0x4b, 0x0a, 0x61, 0x81,
   0x46, 0x37, 0x85, 0xd6, 0x35, 0x3b, 0x69, 0x0e, 0xb9, 0xbe]

/-- SHA-1 of the bad-compression file's first 0x48 bytes with the hash
field zeroed. -/
def exBadCompHeader1Hash : List Nat :=
  [0x18, 0x54, 0x37, 0x73, 0x4b, 0x2a, 0x11, 0xfe, 0x79, 0xe4,
   0xd3, 0x5c, 0x1d, 0x81, 0xa6, 0x57, 0x0a, 0x61, 0x5e, 0x0b]

/-- A file exactly like `exBytes` — both header hashes correct — except
that `compression_type` is 5, outside the enumeration. -/
def exBadCompBytes : List Nat :=
  [0x57, 0x49, 0x41, 0x01,
   0x01, 0x00, 0x00, 0x00,
   0x00, 0x08, 0x00, 0x00,
   0x00, 0x00, 0x00, 0xDC] ++
  exBadCompHeader2Hash ++
  [0x00, 0x00, 0x00, 0x00, 0x00, 0x00, 0x12, 0x34] ++
  [0x00, 0x00, 0x00, 0x00, 0x00, 0x00, 0x00, 0x99] ++
  exBadCompHeader1Hash ++
  exBadCompHeader2Bytes

/-! ## The claims -/

/-- C1: for every successfully opened decoder, `GetDataSize` returns the
uncompressed disc size: it applies `Common::swap64` to the stored
`Header1.iso_file_size` field, which equals the big-endian on-disk field
(file bytes 36..44) converted to host byte order. -/
theorem getDataSize_is_iso_file_size (bs : List Nat) (r : WIAFileReader)
    (hok : openWIA bs = Except.ok r) (hb : ∀ b ∈ bs, b < 256) :
    r.GetDataSize = swap64 r.m_header_1.iso_file_size ∧
    r.GetDataSize = beInterp (sliceBytes bs 36 8) := by
  obtain ⟨hlen, hh1, -, -, -⟩ := openWIA_ok_inv bs r hok
  refine ⟨rfl, ?_⟩
  rw [WIAFileReader.GetDataSize, hh1]
  show swap64 (leInterp (sliceBytes bs 36 8)) = _
  exact swap64_leInterp _ (fun b h2 => hb b (sliceBytes_subset bs 36 8 b h2))
    (sliceBytes_length bs 36 8 (by omega))

/-- C1 witness: on the concrete example file, `GetDataSize` is the
host-order value of the big-endian `iso_file_size` field. -/
theorem getDataSize_is_iso_file_size_witness :
    exReader.GetDataSize = swap64 exReader.m_header_1.iso_file_size ∧
    exReader.GetDataSize = beInterp (sliceBytes exBytes 36 8) :=
  getDataSize_is_iso_file_size exBytes exReader openWIA_exBytes (by decide)

/-- C2 counterexample: after a successful open, the stored
`iso_file_size` field of the example reader is not in host order — the
host-order (big-endian-decoded) value of the field is what `GetDataSize`
returns, and the stored field differs from it, so the accessor does
re-swap the stored field. -/
theorem stored_header_not_host_order :
    openWIA exBytes = Except.ok exReader ∧
    exReader.m_header_1.iso_file_size ≠ beInterp (sliceBytes exBytes 36 8) ∧
    exReader.GetDataSize = beInterp (sliceBytes exBytes 36 8) :=
  ⟨openWIA_exBytes, by decide, by decide⟩

/-- C2 (amended): after a successful open the decoder's stored headers
hold the fields exactly as loaded from the file — raw, so on a
little-endian host the byte-swapped image of the big-endian on-disk value
— and every integer accessor converts big-endian to host order at access
time by applying `Common::swap64`/`swap32` to the stored field. -/
theorem header_stored_raw_accessors_swap (bs : List Nat) (r : WIAFileReader)
    (hok : openWIA bs = Except.ok r) :
    r.m_header_1.iso_file_size = leInterp (sliceBytes bs 36 8) ∧
    r.m_header_1.wia_file_size = leInterp (sliceBytes bs 44 8) ∧
    r.m_header_2.chunk_size = leInterp (sliceBytes bs 84 4) ∧
    r.GetDataSize = swap64 r.m_header_1.iso_file_size ∧
    r.GetRawSize = swap64 r.m_header_1.wia_file_size ∧
    r.GetBlockSize = swap32 r.m_header_2.chunk_size := by
  obtain ⟨hlen, hh1, hh2, -, -⟩ := openWIA_ok_inv bs r hok
  refine ⟨by rw [hh1]; rfl, by rw [hh1]; rfl, ?_, rfl, rfl, rfl⟩
  rw [hh2]
  show leInterp (sliceBytes (bs.drop 0x48) 12 4) = _
  rw [sliceBytes_drop]

/-- C2 (amended) witness: the raw-storage and access-time-swap facts on
the concrete example file. -/
theorem header_stored_raw_accessors_swap_witness :
    exReader.m_header_1.iso_file_size = leInterp (sliceBytes exBytes 36 8) ∧
    exReader.m_header_1.wia_file_size = leInterp (sliceBytes exBytes 44 8) ∧
    exReader.m_header_2.chunk_size = leInterp (sliceBytes exBytes 84 4) ∧
    exReader.GetDataSize = swap64 exReader.m_header_1.iso_file_size ∧
    exReader.GetRawSize = swap64 exReader.m_header_1.wia_file_size ∧
    exReader.GetBlockSize = swap32 exReader.m_header_2.chunk_size :=
  header_stored_raw_accessors_swap exBytes exReader openWIA_exBytes

/-- C3: the read-compatibility floor is the constant 0x00080000, and open
rejects (never returns a decoder for) any file whose big-endian
`version_compatible` field is strictly below it. -/
theorem open_rejects_low_version_compatible :
    WIA_VERSION_READ_COMPATIBLE = 0x00080000 ∧
    ∀ bs : List Nat, (∀ b ∈ bs, b < 256) →
      beInterp (sliceBytes bs 8 4) < WIA_VERSION_READ_COMPATIBLE →
      ∀ r : WIAFileReader, openWIA bs ≠ Except.ok r := by
  refine ⟨rfl, ?_⟩
  intro bs hb hv r hok
  obtain ⟨hlen, -, -, -, hver⟩ := openWIA_ok_inv bs r hok
  have he : swap32 (loadHeader1 bs).version_compatible = beInterp (sliceBytes bs 8 4) := by
    show swap32 (leInterp (sliceBytes bs 8 4)) = _
    exact swap32_leInterp _ (fun b h2 => hb b (sliceBytes_subset bs 8 4 b h2))
      (sliceBytes_length bs 8 4 (by omega))
  rw [he] at hver
  omega

/-- C3 witness: a concrete file with `version_compatible` = 0x00070000 is
rejected. -/
theorem open_rejects_low_version_compatible_witness :
    beInterp (sliceBytes exBadVersionBytes 8 4) < WIA_VERSION_READ_COMPATIBLE ∧
    openWIA exBadVersionBytes ≠ Except.ok exReader :=
  ⟨by decide,
    open_rejects_low_version_compatible.2 exBadVersionBytes (by decide) (by decide) exReader⟩

/-- C4: `WIA_MAGIC` equals 0x01414957, which is the bytes `"WIA\x01"`
read as a little-endian u32; and a file (large enough for the headers)
whose first u32 differs from it makes open fail with
`UnsupportedFormat`. -/
theorem magic_constant_and_rejection :
    WIA_MAGIC = 0x01414957 ∧
    leInterp [('W').toNat, ('I').toNat, ('A').toNat, 0x01] = WIA_MAGIC ∧
    ∀ bs : List Nat, 0x48 + 0xDC ≤ bs.length →
      leInterp (sliceBytes bs 0 4) ≠ WIA_MAGIC →
      openWIA bs = Except.error WIAError.UnsupportedFormat := by
  refine ⟨rfl, by decide, ?_⟩
  intro bs hlen hm
  unfold openWIA
  rw [if_neg (by omega), if_pos]
  exact hm

/-- C4 witness: the file starting with the u32 0x01414958 (spec scenario
S1) is rejected with `UnsupportedFormat`. -/
theorem magic_constant_and_rejection_witness :
    leInterp (sliceBytes exBadMagicBytes 0 4) ≠ WIA_MAGIC ∧
    openWIA exBadMagicBytes = Except.error WIAError.UnsupportedFormat :=
  ⟨by decide, magic_constant_and_rejection.2.2 exBadMagicBytes (by decide) (by decide)⟩

/-- C5: the compression-type enumeration maps exactly None=0, Purge=1,
Bzip2=2, LZMA=3, LZMA2=4; no other u32 decodes to an enumerator; and a
header-sized file that passes the two header hash checks but whose
`compression_type` field is outside 0..4 makes open fail with
`UnsupportedFormat` (a file failing a hash check fails `Corrupt` at the
hash step instead, before the compression check is reached). -/
theorem compression_type_enumeration :
    CompressionType.toU32 CompressionType.None = 0 ∧
    CompressionType.toU32 CompressionType.Purge = 1 ∧
    CompressionType.toU32 CompressionType.Bzip2 = 2 ∧
    CompressionType.toU32 CompressionType.LZMA = 3 ∧
    CompressionType.toU32 CompressionType.LZMA2 = 4 ∧
    (∀ c : CompressionType,
      CompressionType.ofU32 (CompressionType.toU32 c) = Option.some c) ∧
    (∀ n : Nat, 4 < n → CompressionType.ofU32 n = Option.none) ∧
    ∀ bs : List Nat, 0x48 + 0xDC ≤ bs.length → (∀ b ∈ bs, b < 256) →
      sha1 (header1HashInput bs) = (loadHeader1 bs).header_1_hash →
      0x48 + swap32 (loadHeader1 bs).header_2_size ≤ bs.length →
      sha1 (header2HashInput bs) = (loadHeader1 bs).header_2_hash →
      4 < beInterp (sliceBytes bs 76 4) →
      openWIA bs = Except.error WIAError.UnsupportedFormat := by
  have h4 : ∀ n : Nat, 4 < n → CompressionType.ofU32 n = Option.none := by
    intro n hn
    match n, hn with
    | (m + 5), _ => rfl
  refine ⟨rfl, rfl, rfl, rfl, rfl, fun c => by cases c <;> rfl, h4, ?_⟩
  intro bs hlen hb hhash1 hlen2 hhash2 hc
  have hcomp : swap32 (loadHeader2 (bs.drop 0x48)).compression_type =
      beInterp (sliceBytes bs 76 4) := by
    show swap32 (leInterp (sliceBytes (bs.drop 0x48) 4 4)) = _
    rw [sliceBytes_drop]
    exact swap32_leInterp _ (fun b h2 => hb b (sliceBytes_subset bs 76 4 b h2))
      (sliceBytes_length bs 76 4 (by omega))
  unfold openWIA
  rw [if_neg (by omega)]
  by_cases hm : (loadHeader1 bs).magic ≠ WIA_MAGIC
  · rw [if_pos hm]
  · rw [if_neg hm, if_neg (not_not_intro hhash1), if_neg (Nat.not_lt.mpr hlen2),
      if_neg (not_not_intro hhash2)]
    by_cases hv : swap32 (loadHeader1 bs).version_compatible < WIA_VERSION_READ_COMPATIBLE
    · rw [if_pos hv]
    · rw [if_neg hv]
      by_cases hd : ¬ (swap32 (loadHeader2 (bs.drop 0x48)).disc_type = 1 ∨
          swap32 (loadHeader2 (bs.drop 0x48)).disc_type = 2)
      · rw [if_pos hd]
      · rw [if_neg hd]
        have hnone : CompressionType.ofU32
            (swap32 (loadHeader2 (bs.drop 0x48)).compression_type) = Option.none := by
          rw [hcomp]
          exact h4 _ hc
        rw [hnone]

/-- C5 witness: a concrete file with both header hashes correct and
`compression_type` = 5 is rejected with `UnsupportedFormat`. -/
theorem compression_type_enumeration_witness :
    sha1 (header1HashInput exBadCompBytes) = (loadHeader1 exBadCompBytes).header_1_hash ∧
    sha1 (header2HashInput exBadCompBytes) = (loadHeader1 exBadCompBytes).header_2_hash ∧
    4 < beInterp (sliceBytes exBadCompBytes 76 4) ∧
    openWIA exBadCompBytes = Except.error WIAError.UnsupportedFormat :=
  ⟨by decide, by decide, by decide,
    compression_type_enumeration.2.2.2.2.2.2.2 exBadCompBytes
      (by decide) (by decide) (by decide) (by decide) (by decide) (by decide)⟩

/-- C6: the packed on-disk records have exactly the declared sizes:
`Header1` is 0x48 bytes, `Header2` is 0xDC, a raw-data entry 0x18, a
group entry 0x08 (two u32 fields), a hash-exception entry 0x16 (u16
offset plus 20-byte hash), a purge segment 0x08 (u32 offset, u32 size),
and a partition entry a 16-byte key followed by two 0x10-byte
`PartitionDataEntry` records, 0x30 in total. -/
theorem record_sizes (h1 : WIAHeader1) (h2 : WIAHeader2) (rd : RawDataEntry)
    (g : GroupEntry) (he : HashExceptionEntry) (ps : PurgeSegment)
    (pe : PartitionEntry)
    (hh1a : h1.header_2_hash.length = 20) (hh1b : h1.header_1_hash.length = 20)
    (hd : h2.disc_header.length = 0x80)
    (hph : h2.partition_entries_hash.length = 20)
    (hcd : h2.compressor_data.length = 7)
    (hhe : he.hash.length = 20) (hpk : pe.partition_key.length = 16) :
    (serializeHeader1 h1).length = 0x48 ∧
    (serializeHeader2 h2).length = 0xDC ∧
    (serializeRawDataEntry rd).length = 0x18 ∧
    (serializeGroupEntry g).length = 0x08 ∧
    serializeGroupEntry g = bytesBE 4 g.data_offset ++ bytesBE 4 g.data_size ∧
    (serializeHashExceptionEntry he).length = 0x16 ∧
    (serializePurgeSegment ps).length = 0x08 ∧
    serializePurgeSegment ps = bytesBE 4 ps.offset ++ bytesBE 4 ps.size ∧
    (serializePartitionDataEntry pe.data_entries.1).length = 0x10 ∧
    (serializePartitionDataEntry pe.data_entries.2).length = 0x10 ∧
    serializePartitionEntry pe = pe.partition_key ++
      serializePartitionDataEntry pe.data_entries.1 ++
      serializePartitionDataEntry pe.data_entries.2 ∧
    (serializePartitionEntry pe).length = 0x30 := by
  simp [serializeHeader1, serializeHeader2, serializeRawDataEntry,
    serializeGroupEntry, serializeHashExceptionEntry, serializePurgeSegment,
    serializePartitionEntry, serializePartitionDataEntry, bytesBE,
    bytesLE_length, hh1a, hh1b, hd, hph, hcd, hhe, hpk]

/-- Concrete raw-data entry for the size witness. -/
def exRawDataEntry : RawDataEntry where
  data_offset := 0
  data_size := 0x200000
  group_index := 0
  number_of_groups := 1

/-- Concrete group entry for the size witness. -/
def exGroupEntry : GroupEntry where
  data_offset := 0x40
  data_size := 0x100

/-- Concrete hash-exception entry for the size witness. -/
def exHashExceptionEntry : HashExceptionEntry where
  offset := 0
  hash := List.replicate 20 0

/-- Concrete purge segment for the size witness. -/
def exPurgeSegment : PurgeSegment where
  offset := 0x100
  size := 4

/-- Concrete partition data entry for the size witness. -/
def exPartitionDataEntry : PartitionDataEntry where
  first_sector := 0
  number_of_sectors := 8
  group_index := 0
  number_of_groups := 1

/-- Concrete partition entry for the size witness. -/
def exPartitionEntry : PartitionEntry where
  partition_key := List.replicate 16 0
  data_entries := (exPartitionDataEntry, exPartitionDataEntry)

/-- C6 witness: the record sizes evaluated on concrete records (the
headers are the ones loaded from the example file). -/
theorem record_sizes_witness :
    (serializeHeader1 (loadHeader1 exBytes)).length = 0x48 ∧
    (serializeHeader2 (loadHeader2 (exBytes.drop 0x48))).length = 0xDC ∧
    (serializeRawDataEntry exRawDataEntry).length = 0x18 ∧
    (serializeGroupEntry exGroupEntry).length = 0x08 ∧
    serializeGroupEntry exGroupEntry =
      bytesBE 4 exGroupEntry.data_offset ++ bytesBE 4 exGroupEntry.data_size ∧
    (serializeHashExceptionEntry exHashExceptionEntry).length = 0x16 ∧
    (serializePurgeSegment exPurgeSegment).length = 0x08 ∧
    serializePurgeSegment exPurgeSegment =
      bytesBE 4 exPurgeSegment.offset ++ bytesBE 4 exPurgeSegment.size ∧
    (serializePartitionDataEntry exPartitionEntry.data_entries.1).length = 0x10 ∧
    (serializePartitionDataEntry exPartitionEntry.data_entries.2).length = 0x10 ∧
    serializePartitionEntry exPartitionEntry = exPartitionEntry.partition_key ++
      serializePartitionDataEntry exPartitionEntry.data_entries.1 ++
      serializePartitionDataEntry exPartitionEntry.data_entries.2 ∧
    (serializePartitionEntry exPartitionEntry).length = 0x30 :=
  record_sizes (loadHeader1 exBytes) (loadHeader2 (exBytes.drop 0x48))
    exRawDataEntry exGroupEntry exHashExceptionEntry exPurgeSegment
    exPartitionEntry (by decide) (by decide) (by decide) (by decide)
    (by decide) (by decide) (by decide)

/-- C7: for every successfully opened decoder, `GetRawSize` returns the
compressed WIA file size: it applies `Common::swap64` to the stored
`Header1.wia_file_size` field, the host-order value of the big-endian
on-disk field (file bytes 44..52). -/
theorem getRawSize_is_wia_file_size (bs : List Nat) (r : WIAFileReader)
    (hok : openWIA bs = Except.ok r) (hb : ∀ b ∈ bs, b < 256) :
    r.GetRawSize = swap64 r.m_header_1.wia_file_size ∧
    r.GetRawSize = beInterp (sliceBytes bs 44 8) := by
  obtain ⟨hlen, hh1, -, -, -⟩ := openWIA_ok_inv bs r hok
  refine ⟨rfl, ?_⟩
  rw [WIAFileReader.GetRawSize, hh1]
  show swap64 (leInterp (sliceBytes bs 44 8)) = _
  exact swap64_leInterp _ (fun b h2 => hb b (sliceBytes_subset bs 44 8 b h2))
    (sliceBytes_length bs 44 8 (by omega))

/-- C7 witness: on the concrete example file, `GetRawSize` is the
host-order value of the big-endian `wia_file_size` field. -/
theorem getRawSize_is_wia_file_size_witness :
    exReader.GetRawSize = swap64 exReader.m_header_1.wia_file_size ∧
    exReader.GetRawSize = beInterp (sliceBytes exBytes 44 8) :=
  getRawSize_is_wia_file_size exBytes exReader openWIA_exBytes (by decide)

/-- C8: for every successfully opened decoder, `GetBlockSize` returns the
`chunk_size` field of `Header2`: it applies `Common::swap32` to the
stored field, the host-order value of the big-endian on-disk field (file
bytes 84..88, i.e. offset 12 inside `Header2`). -/
theorem getBlockSize_is_chunk_size (bs : List Nat) (r : WIAFileReader)
    (hok : openWIA bs = Except.ok r) (hb : ∀ b ∈ bs, b < 256) :
    r.GetBlockSize = swap32 r.m_header_2.chunk_size ∧
    r.GetBlockSize = beInterp (sliceBytes bs 84 4) := by
  obtain ⟨hlen, -, hh2, -, -⟩ := openWIA_ok_inv bs r hok
  refine ⟨rfl, ?_⟩
  rw [WIAFileReader.GetBlockSize, hh2]
  show swap32 (leInterp (sliceBytes (bs.drop 0x48) 12 4)) = _
  rw [sliceBytes_drop]
  exact swap32_leInterp _ (fun b h2 => hb b (sliceBytes_subset bs 84 4 b h2))
    (sliceBytes_length bs 84 4 (by omega))

/-- C8 witness: on the concrete example file, `GetBlockSize` is the
host-order value of the big-endian `chunk_size` field (0x200000). -/
theorem getBlockSize_is_chunk_size_witness :
    exReader.GetBlockSize = swap32 exReader.m_header_2.chunk_size ∧
    exReader.GetBlockSize = beInterp (sliceBytes exBytes 84 4) :=
  getBlockSize_is_chunk_size exBytes exReader openWIA_exBytes (by decide)

/-- C9: `HasFastRandomAccessInBlock` returns `false` for every decoder
instance, regardless of the opened file. -/
theorem hasFastRandomAccessInBlock_always_false (r : WIAFileReader) :
    r.HasFastRandomAccessInBlock = false := rfl

/-- C10: `IsDataSizeAccurate` returns `true` for every decoder instance:
the decoder promises that `GetDataSize` is exact, not an estimate. -/
theorem isDataSizeAccurate_always_true (r : WIAFileReader) :
    r.IsDataSizeAccurate = true := rfl

end DiscIO
